import Mathlib

-- Verification of the lavarrock backend (plugin-config store, theme store,
-- model factory) against its design specification.  The Python sources are
-- shallowly embedded: JSON values become an inductive type, Python dicts
-- become association lists (unique keys, insertion order preserved), the
-- stores' backing files become explicit state records, and every route
-- handler becomes a pure function from state (and request data) to state
-- and response.

set_option autoImplicit false

namespace Lavarrock

-- ── JSON values ───────────────────────────────────────────────────────────
-- Parsed JSON as produced by Python json.loads: objects keep key order and
-- have unique keys (json.loads builds a dict).  Numeric literals are
-- modelled as integers; no claim inspects the value of a JSON number, they
-- are carried through the stores opaquely.
inductive Json where
  | null : Json
  | bool (b : Bool) : Json
  | num (n : Int) : Json
  | str (s : String) : Json
  | arr (elems : List Json) : Json
  | obj (entries : List (String × Json)) : Json
deriving Inhabited

-- ── Python dict operations over association lists ─────────────────────────

/-- d.get(key): first entry with the given key (Python dicts never hold
duplicate keys, so first-match agrees with dict lookup). -/
def alookup {α : Type} : List (String × α) → String → Option α
  | [], _ => none
  | (k, v) :: rest, key => if k = key then some v else alookup rest key

/-- d[key] = v: replace the value at the key in place (keeping its position,
as Python dict assignment does), or append the key when absent. -/
def dictSet {α : Type} : List (String × α) → String → α → List (String × α)
  | [], key, v => [(key, v)]
  | (k, w) :: rest, key, v =>
      if k = key then (k, v) :: rest else (k, w) :: dictSet rest key v

/-- d.get(key, dflt). -/
def dictGetD {α : Type} (d : List (String × α)) (key : String) (dflt : α) : α :=
  (alookup d key).getD dflt

/-- Python dict merge via double splat: keys of the first dict in order with
values overridden by the second, then the second dict's new keys appended. -/
def dictUpdate {α : Type} (a b : List (String × α)) : List (String × α) :=
  a.map (fun p => (p.1, (alookup b p.1).getD p.2)) ++
    b.filter (fun p => (alookup a p.1).isNone)

/-- del d[key] / file unlink: drop the first entry with the given key. -/
def aerase {α : Type} : List (String × α) → String → List (String × α)
  | [], _ => []
  | (k, v) :: rest, key => if k = key then rest else (k, v) :: aerase rest key

@[simp] theorem alookup_nil {α : Type} (key : String) :
    alookup ([] : List (String × α)) key = none := rfl

@[simp] theorem alookup_cons {α : Type} (k : String) (v : α)
    (rest : List (String × α)) (key : String) :
    alookup ((k, v) :: rest) key = if k = key then some v else alookup rest key := rfl

@[simp] theorem alookup_dictSet_self {α : Type} (d : List (String × α))
    (key : String) (v : α) : alookup (dictSet d key v) key = some v := by
  induction d with
  | nil => simp [dictSet]
  | cons p rest ih =>
      obtain ⟨k, w⟩ := p
      by_cases h : k = key <;> simp [dictSet, h, ih]

theorem alookup_dictSet_ne {α : Type} (d : List (String × α))
    (key key' : String) (v : α) (h : key' ≠ key) :
    alookup (dictSet d key v) key' = alookup d key' := by
  have h' : ¬ key = key' := fun e => h e.symm
  induction d with
  | nil => simp [dictSet, alookup, h']
  | cons p rest ih =>
      obtain ⟨k, w⟩ := p
      by_cases hk : k = key
      · subst hk
        simp [dictSet, alookup, h']
      · by_cases hk' : k = key'
        · subst hk'
          simp [dictSet, hk, alookup]
        · simp [dictSet, hk, alookup, hk', ih]

theorem alookup_append {α : Type} (a b : List (String × α)) (key : String) :
    alookup (a ++ b) key = ((alookup a key).or (alookup b key)) := by
  induction a with
  | nil => simp [alookup]
  | cons p rest ih =>
      obtain ⟨k, v⟩ := p
      by_cases h : k = key <;> simp [alookup, h, ih]

theorem alookup_filter_isNone {α : Type} (a b : List (String × α)) (key : String) :
    alookup (b.filter (fun p => (alookup a p.1).isNone)) key =
      if (alookup a key).isNone then alookup b key else none := by
  induction b with
  | nil => simp [alookup]
  | cons p rest ih =>
      obtain ⟨k, v⟩ := p
      by_cases hk : (alookup a k).isNone
      · by_cases h : k = key
        · subst h
          simp [List.filter, hk, alookup, ih]
        · simp [List.filter, hk, alookup, h, ih]
      · by_cases h : k = key
        · subst h
          simp [List.filter, hk, alookup, ih]
        · simp [List.filter, hk, alookup, h, ih]

theorem alookup_map_update {α : Type} (a b : List (String × α)) (key : String) :
    alookup (a.map (fun p => (p.1, (alookup b p.1).getD p.2))) key =
      (alookup a key).map (fun v => (alookup b key).getD v) := by
  induction a with
  | nil => simp [alookup]
  | cons p rest ih =>
      obtain ⟨k, v⟩ := p
      by_cases h : k = key
      · subst h
        simp [alookup, ih]
      · simp [alookup, h, ih]

@[simp] theorem some_or {α : Type} (a : α) (o : Option α) :
    (some a).or o = some a := rfl

/-- Lookup in a Python dict merge: the second dict wins, the first is the
fallback. -/
theorem alookup_dictUpdate {α : Type} (a b : List (String × α)) (key : String) :
    alookup (dictUpdate a b) key = (alookup b key).or (alookup a key) := by
  unfold dictUpdate
  rw [alookup_append, alookup_map_update, alookup_filter_isNone]
  cases ha : alookup a key <;> cases hb : alookup b key <;> simp

theorem alookup_aerase_ne {α : Type} (d : List (String × α))
    (key f : String) (h : key ≠ f) :
    alookup (aerase d f) key = alookup d key := by
  have h' : ¬ f = key := fun e => h e.symm
  induction d with
  | nil => simp [aerase]
  | cons p rest ih =>
      obtain ⟨k, v⟩ := p
      by_cases hk : k = f
      · subst hk
        simp [aerase, alookup, h']
      · simp [aerase, hk, alookup, ih]

theorem aerase_sublist {α : Type} (d : List (String × α)) (f : String) :
    (aerase d f).Sublist d := by
  induction d with
  | nil => simp [aerase]
  | cons p rest ih =>
      obtain ⟨k, v⟩ := p
      by_cases hk : k = f
      · simp [aerase, hk]
      · simpa [aerase, hk] using ih.cons₂ (k, v)

theorem alookup_eq_none_of_not_mem {α : Type} (d : List (String × α))
    (key : String) (h : key ∉ d.map Prod.fst) : alookup d key = none := by
  induction d with
  | nil => simp [alookup]
  | cons p rest ih =>
      obtain ⟨k, v⟩ := p
      simp only [List.map_cons, List.mem_cons] at h
      push_neg at h
      have h' : ¬ k = key := fun e => h.1 e.symm
      simp [alookup, h', ih h.2]

/-- On a directory with unique file names, removing a file makes its lookup
fail. -/
theorem alookup_aerase_self {α : Type} (d : List (String × α)) (f : String)
    (h : (d.map Prod.fst).Nodup) : alookup (aerase d f) f = none := by
  induction d with
  | nil => simp [aerase]
  | cons p rest ih =>
      obtain ⟨k, v⟩ := p
      simp only [List.map_cons, List.nodup_cons] at h
      by_cases hk : k = f
      · subst hk
        simpa [aerase] using alookup_eq_none_of_not_mem rest k h.1
      · simp [aerase, hk, alookup, ih h.2]

-- ── Plugin configuration store (routes/config.py) ─────────────────────────

/-- The backing file plugin_config.json.  corrupt covers the two failure
modes the source catches: read_text failing with an OSError, or decoded
text that json.loads rejects with a JSONDecodeError.  undecodable is the
failure mode it does not catch: bytes that do not decode as UTF-8 make
read_text raise UnicodeDecodeError, a ValueError, which is neither a
JSONDecodeError nor an OSError and so propagates out of _read_config. -/
inductive CFile where
  | absent : CFile
  | corrupt : CFile
  | undecodable : CFile
  | valid (doc : Json) : CFile

/-- A default plugin entry as written in DEFAULT_CONFIG: every one of the 16
entries has the same shape, enabled with empty settings. -/
def pluginEntry (pid : String) : Json :=
  Json.obj [("id", Json.str pid), ("enabled", Json.bool true), ("settings", Json.obj [])]

/-- DEFAULT_CONFIG["plugins"]: the process-wide list object.  It is kept in
the store state because _read_config only makes a shallow copy of
DEFAULT_CONFIG, so this list (and the entry dicts inside it) is shared with
every document returned by a fallback read and can be mutated through it. -/
def DEFAULT_CONFIG_plugins : List Json :=
  [pluginEntry "lavarrock.ui",
   pluginEntry "lavarrock.wm",
   pluginEntry "lavarrock.tooltips",
   pluginEntry "lavarrock.header",
   pluginEntry "lavarrock.search-modal",
   pluginEntry "lavarrock.app-modal",
   pluginEntry "lavarrock.search-bar",
   pluginEntry "lavarrock.app-launcher",
   pluginEntry "lavarrock.json-tool",
   pluginEntry "lavarrock.theme-engine",
   pluginEntry "lavarrock.theme-manager",
   pluginEntry "lavarrock.theme-import",
   pluginEntry "lavarrock.layout-engine",
   pluginEntry "lavarrock.settings-engine",
   pluginEntry "lavarrock.layout-manager",
   pluginEntry "lavarrock.settings-manager"]

/-- The hard-coded default document as written in the source. -/
def DEFAULT_CONFIG : Json := Json.obj [("plugins", Json.arr DEFAULT_CONFIG_plugins)]

/-- Plugin-store state: the backing file plus the current value of the
process-wide DEFAULT_CONFIG plugins list (pristine at process start). -/
structure CState where
  file : CFile
  defaults : List Json

/-- _read_config: return the parsed file when it exists and parses; fall
back to a shallow copy of DEFAULT_CONFIG when the file is absent, raises
an OSError, or its text is not valid JSON; but let the UnicodeDecodeError
of undecodable bytes escape (Except.error ()).  The Bool records whether
the returned document shares its plugins list with DEFAULT_CONFIG (true
exactly on the fallback path; json.loads builds fresh objects). -/
def _read_config (s : CState) : Except Unit (Json × Bool) :=
  match s.file with
  | CFile.valid doc => Except.ok (doc, false)
  | CFile.undecodable => Except.error ()
  | _ => Except.ok (Json.obj [("plugins", Json.arr s.defaults)], true)

/-- GET /api/config: return the current document; reading never writes.
The uncaught UnicodeDecodeError surfaces as an HTTP 500 (Except.error). -/
def get_config (s : CState) : CState × Except Unit Json :=
  match _read_config s with
  | Except.ok rc => (s, Except.ok rc.1)
  | Except.error e => (s, Except.error e)

/-- PUT /api/config: _write_config(body) then echo the body. -/
def put_config (s : CState) (body : Json) : CState × Json :=
  ({ file := CFile.valid body, defaults := s.defaults }, body)

/-- entry["id"] == plugin_id in Python: value equality when the id is a
string, False for any other JSON value. -/
def idMatches : Json → String → Bool
  | Json.str s, pid => s = pid
  | _, _ => false

/-- Result of the for-loop in patch_plugin over the plugins list.  err: an
exception before any mutation (entry not a dict, or KeyError on "id").
errMut: TypeError merging a non-dict settings value, after entry["enabled"]
was already assigned; carries the list as mutated so far.  found: the match
branch ran to completion; carries the updated list and the updated entry.
notFound: the loop fell through. -/
inductive PatchScan where
  | err : PatchScan
  | errMut (entries : List Json) : PatchScan
  | found (entries : List Json) (entry : Json) : PatchScan
  | notFound : PatchScan

/-- The for-loop of patch_plugin: find the first entry whose "id" equals
plugin_id, set its "enabled" from the body (falling back to the current
value, default True), and shallow-merge the body's "settings" over the
entry's "settings". -/
def scanPatch (pid : String) (body : List (String × Json)) : List Json → PatchScan
  | [] => PatchScan.notFound
  | e :: rest =>
    match e with
    | Json.obj kvs =>
      match alookup kvs "id" with
      | none => PatchScan.err
      | some idv =>
        if idMatches idv pid then
          let env := dictGetD body "enabled" (dictGetD kvs "enabled" (Json.bool true))
          let kvs1 := dictSet kvs "enabled" env
          match dictGetD kvs1 "settings" (Json.obj []), dictGetD body "settings" (Json.obj []) with
          | Json.obj ekvs, Json.obj bkvs =>
            let newE := Json.obj (dictSet kvs1 "settings" (Json.obj (dictUpdate ekvs bkvs)))
            PatchScan.found (newE :: rest) newE
          | _, _ => PatchScan.errMut (Json.obj kvs1 :: rest)
        else
          match scanPatch pid body rest with
          | PatchScan.notFound => PatchScan.notFound
          | PatchScan.err => PatchScan.err
          | PatchScan.errMut es => PatchScan.errMut (e :: es)
          | PatchScan.found es r => PatchScan.found (e :: es) r
    | _ => PatchScan.err

/-- PATCH /api/config/plugin/plugin_id.  Reads the current document, merges
the body into the matching entry or appends a fresh entry, writes the
document back, and returns the entry.  Error () stands for an uncaught
exception (HTTP 500); in that case no document is written, but mutations
already applied through the aliased DEFAULT_CONFIG list survive.  When the
read fell back to the default document, the in-place list mutations hit the
process-wide DEFAULT_CONFIG plugins list, so defaults is updated too. -/
def patch_plugin (s : CState) (pid : String) (body : List (String × Json)) :
    CState × Except Unit Json :=
  match _read_config s with
  | Except.error _ => (s, Except.error ())
  | Except.ok rc =>
    let aliased := rc.2
    match rc.1 with
    | Json.obj ckvs =>
      match (alookup ckvs "plugins").getD (Json.arr []) with
      | Json.arr entries =>
        match scanPatch pid body entries with
        | PatchScan.err => (s, Except.error ())
        | PatchScan.errMut es =>
            ({ file := s.file, defaults := if aliased then es else s.defaults },
             Except.error ())
        | PatchScan.found es e =>
            ({ file := CFile.valid (Json.obj (dictSet ckvs "plugins" (Json.arr es))),
               defaults := if aliased then es else s.defaults },
             Except.ok e)
        | PatchScan.notFound =>
            let newE := Json.obj
              [("id", Json.str pid),
               ("enabled", dictGetD body "enabled" (Json.bool true)),
               ("settings", dictGetD body "settings" (Json.obj []))]
            let es := entries ++ [newE]
            ({ file := CFile.valid (Json.obj (dictSet ckvs "plugins" (Json.arr es))),
               defaults := if aliased then es else s.defaults },
             Except.ok newE)
      | _ => (s, Except.error ())
    | _ => (s, Except.error ())

-- ── Claims C2 and C3 ──────────────────────────────────────────────────────

/-- Claim C2: for every JSON-serializable document d, replace(d)
(PUT /api/config) followed by read() (GET /api/config) returns exactly d;
the store round-trips any well-formed document through the backing file
without altering it. -/
theorem C2_replace_then_read_roundtrip (s : CState) (d : Json) :
    (put_config s d).1.file = CFile.valid d ∧
      (get_config (put_config s d).1).2 = Except.ok d :=
  ⟨rfl, rfl⟩

/-- Counterexample to claim C3 as stated: a backing file whose bytes do not
decode as text holds bytes that are not valid JSON, yet read() raises
(read_text fails with UnicodeDecodeError, caught by neither except clause)
instead of returning the hard-coded default document. -/
theorem C3_counterexample_undecodable_bytes :
    (get_config ⟨CFile.undecodable, DEFAULT_CONFIG_plugins⟩).2 =
      Except.error () ∧
    (get_config ⟨CFile.undecodable, DEFAULT_CONFIG_plugins⟩).2 ≠
      Except.ok DEFAULT_CONFIG := by
  refine ⟨rfl, ?_⟩
  intro h
  have hl : (get_config ⟨CFile.undecodable, DEFAULT_CONFIG_plugins⟩).2 =
      Except.error () := rfl
  rw [hl] at h
  exact Except.noConfusion h

/-- Claim C3 (amended): when the backing file is absent, unreadable with an
OS error, or holds text that is not valid JSON, read() returns the
hard-coded default document without raising and leaves the state, in
particular the corrupt file, untouched; but when the file's bytes do not
decode as text, read() raises (the UnicodeDecodeError escapes the except
clause as HTTP 500), again leaving the state untouched. -/
theorem C3_read_fallback_or_raise (s : CState)
    (hdef : s.defaults = DEFAULT_CONFIG_plugins) :
    ((s.file = CFile.absent ∨ s.file = CFile.corrupt) →
      get_config s = (s, Except.ok DEFAULT_CONFIG)) ∧
    (s.file = CFile.undecodable →
      get_config s = (s, Except.error ())) := by
  constructor
  · intro hfile
    rcases hfile with h | h <;>
      simp [get_config, _read_config, h, hdef, DEFAULT_CONFIG]
  · intro h
    simp [get_config, _read_config, h]

/-- Witness for the amended C3 at a corrupt-file and an undecodable-file
state. -/
theorem C3_read_fallback_or_raise_witness :
    get_config ⟨CFile.corrupt, DEFAULT_CONFIG_plugins⟩ =
      (⟨CFile.corrupt, DEFAULT_CONFIG_plugins⟩, Except.ok DEFAULT_CONFIG) ∧
    get_config ⟨CFile.undecodable, DEFAULT_CONFIG_plugins⟩ =
      (⟨CFile.undecodable, DEFAULT_CONFIG_plugins⟩, Except.error ()) :=
  ⟨(C3_read_fallback_or_raise ⟨CFile.corrupt, DEFAULT_CONFIG_plugins⟩ rfl).1
      (Or.inr rfl),
   (C3_read_fallback_or_raise ⟨CFile.undecodable, DEFAULT_CONFIG_plugins⟩ rfl).2
      rfl⟩

-- ── Lemmas about the patch_plugin scan ────────────────────────────────────

/-- An entry the for-loop of patch_plugin walks past without matching: a
JSON object whose "id" value exists and does not equal the patched id. -/
def Skips (e : Json) (pid : String) : Prop :=
  ∃ kvs idv, e = Json.obj kvs ∧ alookup kvs "id" = some idv ∧ idMatches idv pid = false

theorem scanPatch_notFound (pid : String) (body : List (String × Json))
    (entries : List Json) (h : ∀ e ∈ entries, Skips e pid) :
    scanPatch pid body entries = PatchScan.notFound := by
  induction entries with
  | nil => rfl
  | cons e rest ih =>
      obtain ⟨kvs, idv, he, hlk, hm⟩ := h e (List.mem_cons_self e rest)
      subst he
      have ih' := ih (fun x hx => h x (List.mem_cons_of_mem _ hx))
      simp [scanPatch, hlk, hm, ih']

theorem scanPatch_append_found (pid : String) (body : List (String × Json))
    (pre rest : List Json) (es : List Json) (r : Json)
    (hpre : ∀ e ∈ pre, Skips e pid)
    (h : scanPatch pid body rest = PatchScan.found es r) :
    scanPatch pid body (pre ++ rest) = PatchScan.found (pre ++ es) r := by
  induction pre with
  | nil => simpa using h
  | cons e pre' ih =>
      obtain ⟨kvs, idv, he, hlk, hm⟩ := hpre e (List.mem_cons_self e pre')
      subst he
      have ih' := ih (fun x hx => hpre x (List.mem_cons_of_mem _ hx))
      simp [scanPatch, hlk, hm, ih']

theorem scanPatch_hit (pid : String) (body : List (String × Json))
    (kvs ekvs bkvs : List (String × Json)) (rest : List Json) (env : Json)
    (hid : alookup kvs "id" = some (Json.str pid))
    (henv : dictGetD body "enabled" (dictGetD kvs "enabled" (Json.bool true)) = env)
    (hset : dictGetD (dictSet kvs "enabled" env) "settings" (Json.obj []) = Json.obj ekvs)
    (hbset : dictGetD body "settings" (Json.obj []) = Json.obj bkvs) :
    scanPatch pid body (Json.obj kvs :: rest) =
      PatchScan.found
        (Json.obj (dictSet (dictSet kvs "enabled" env) "settings"
            (Json.obj (dictUpdate ekvs bkvs))) :: rest)
        (Json.obj (dictSet (dictSet kvs "enabled" env) "settings"
            (Json.obj (dictUpdate ekvs bkvs)))) := by
  simp [scanPatch, hid, idMatches, henv, hset, hbset]

/-- patch_plugin on a readable document whose scan finds the entry: the
updated document is written back and the updated entry returned. -/
theorem patch_plugin_valid_found (s : CState) (ckvs : List (String × Json))
    (pid : String) (body : List (String × Json)) (entries es : List Json) (e : Json)
    (hf : s.file = CFile.valid (Json.obj ckvs))
    (hp : (alookup ckvs "plugins").getD (Json.arr []) = Json.arr entries)
    (hscan : scanPatch pid body entries = PatchScan.found es e) :
    patch_plugin s pid body =
      ({ file := CFile.valid (Json.obj (dictSet ckvs "plugins" (Json.arr es))),
         defaults := s.defaults },
       Except.ok e) := by
  simp [patch_plugin, _read_config, hf, hp, hscan]

-- ── Claims C1 and C4 ──────────────────────────────────────────────────────

/-- Claim C1: patching an existing entry shallow-merges the body settings
over the entry settings (keys absent from the body keep their old values)
and, when the body carries no "enabled", keeps the entry's enabled value;
two successive patches with disjoint settings keys produce an entry whose
settings is the union of both patches over the original settings. -/
theorem C1_patch_plugin_merge_disjoint (s : CState) (ckvs : List (String × Json))
    (pid : String) (pre post : List Json)
    (kvs ekvs b1 b2 s1 s2 : List (String × Json)) (env : Json)
    (hf : s.file = CFile.valid (Json.obj ckvs))
    (hp : (alookup ckvs "plugins").getD (Json.arr []) =
      Json.arr (pre ++ Json.obj kvs :: post))
    (hpre : ∀ e ∈ pre, Skips e pid)
    (hid : alookup kvs "id" = some (Json.str pid))
    (henb : alookup kvs "enabled" = some env)
    (hset : alookup kvs "settings" = some (Json.obj ekvs))
    (hb1s : alookup b1 "settings" = some (Json.obj s1))
    (hb2s : alookup b2 "settings" = some (Json.obj s2))
    (hb1e : alookup b1 "enabled" = none)
    (hb2e : alookup b2 "enabled" = none)
    (hdisj : ∀ k, alookup s1 k = none ∨ alookup s2 k = none) :
    ∃ kvs1 kvs2 : List (String × Json),
      (patch_plugin s pid b1).2 = Except.ok (Json.obj kvs1) ∧
      (patch_plugin (patch_plugin s pid b1).1 pid b2).2 = Except.ok (Json.obj kvs2) ∧
      alookup kvs1 "enabled" = some env ∧
      alookup kvs2 "enabled" = some env ∧
      (∃ m1, alookup kvs1 "settings" = some (Json.obj m1) ∧
        (∀ k, alookup s1 k = none → alookup m1 k = alookup ekvs k) ∧
        (∀ k v, alookup s1 k = some v → alookup m1 k = some v)) ∧
      (∃ m2, alookup kvs2 "settings" = some (Json.obj m2) ∧
        (∀ k v, alookup s1 k = some v → alookup m2 k = some v) ∧
        (∀ k v, alookup s2 k = some v → alookup m2 k = some v) ∧
        (∀ k, alookup s1 k = none → alookup s2 k = none →
          alookup m2 k = alookup ekvs k)) := by
  have hse : ("settings" : String) ≠ "enabled" := by decide
  have hie : ("id" : String) ≠ "enabled" := by decide
  have his : ("id" : String) ≠ "settings" := by decide
  have hes : ("enabled" : String) ≠ "settings" := by decide
  -- first patch
  have henv1 : dictGetD b1 "enabled" (dictGetD kvs "enabled" (Json.bool true)) = env := by
    simp [dictGetD, hb1e, henb]
  have hset1 : dictGetD (dictSet kvs "enabled" env) "settings" (Json.obj []) =
      Json.obj ekvs := by
    simp [dictGetD, alookup_dictSet_ne kvs "enabled" "settings" env hse, hset]
  have hb1set : dictGetD b1 "settings" (Json.obj []) = Json.obj s1 := by
    simp [dictGetD, hb1s]
  set kvs1 : List (String × Json) :=
    dictSet (dictSet kvs "enabled" env) "settings" (Json.obj (dictUpdate ekvs s1)) with hkvs1
  have hscan1 : scanPatch pid b1 (pre ++ Json.obj kvs :: post) =
      PatchScan.found (pre ++ Json.obj kvs1 :: post) (Json.obj kvs1) :=
    scanPatch_append_found pid b1 pre _ _ _ hpre
      (scanPatch_hit pid b1 kvs ekvs s1 post env hid henv1 hset1 hb1set)
  have h1 := patch_plugin_valid_found s ckvs pid b1 _ _ _ hf hp hscan1
  -- the state after the first patch
  set ckvs' : List (String × Json) :=
    dictSet ckvs "plugins" (Json.arr (pre ++ Json.obj kvs1 :: post)) with hckvs'
  have hf2 : (patch_plugin s pid b1).1.file = CFile.valid (Json.obj ckvs') := by
    rw [h1]
  have hp2 : (alookup ckvs' "plugins").getD (Json.arr []) =
      Json.arr (pre ++ Json.obj kvs1 :: post) := by
    simp [hckvs']
  -- lookups into the once-patched entry
  have hid2 : alookup kvs1 "id" = some (Json.str pid) := by
    rw [hkvs1, alookup_dictSet_ne _ _ _ _ his, alookup_dictSet_ne _ _ _ _ hie, hid]
  have henb2 : alookup kvs1 "enabled" = some env := by
    rw [hkvs1, alookup_dictSet_ne _ _ _ _ hes, alookup_dictSet_self]
  have hset2 : alookup kvs1 "settings" = some (Json.obj (dictUpdate ekvs s1)) := by
    rw [hkvs1, alookup_dictSet_self]
  -- second patch
  have henv2 : dictGetD b2 "enabled" (dictGetD kvs1 "enabled" (Json.bool true)) = env := by
    simp [dictGetD, hb2e, henb2]
  have hset2' : dictGetD (dictSet kvs1 "enabled" env) "settings" (Json.obj []) =
      Json.obj (dictUpdate ekvs s1) := by
    simp [dictGetD, alookup_dictSet_ne kvs1 "enabled" "settings" env hse, hset2]
  have hb2set : dictGetD b2 "settings" (Json.obj []) = Json.obj s2 := by
    simp [dictGetD, hb2s]
  set kvs2 : List (String × Json) :=
    dictSet (dictSet kvs1 "enabled" env) "settings"
      (Json.obj (dictUpdate (dictUpdate ekvs s1) s2)) with hkvs2
  have hscan2 : scanPatch pid b2 (pre ++ Json.obj kvs1 :: post) =
      PatchScan.found (pre ++ Json.obj kvs2 :: post) (Json.obj kvs2) :=
    scanPatch_append_found pid b2 pre _ _ _ hpre
      (scanPatch_hit pid b2 kvs1 (dictUpdate ekvs s1) s2 post env hid2 henv2 hset2' hb2set)
  have h2 := patch_plugin_valid_found (patch_plugin s pid b1).1 ckvs' pid b2 _ _ _
    hf2 hp2 hscan2
  refine ⟨kvs1, kvs2, ?_, ?_, henb2, ?_, ?_, ?_⟩
  · rw [h1]
  · rw [h2]
  · rw [hkvs2, alookup_dictSet_ne _ _ _ _ hes, alookup_dictSet_self]
  · refine ⟨dictUpdate ekvs s1, hset2, ?_, ?_⟩
    · intro k hk
      rw [alookup_dictUpdate, hk, Option.none_or]
    · intro k v hk
      rw [alookup_dictUpdate, hk, some_or]
  · refine ⟨dictUpdate (dictUpdate ekvs s1) s2, ?_, ?_, ?_, ?_⟩
    · rw [hkvs2, alookup_dictSet_self]
    · intro k v hk
      rcases hdisj k with h | h
      · rw [hk] at h
        exact absurd h (by simp)
      · rw [alookup_dictUpdate, h, Option.none_or, alookup_dictUpdate, hk, some_or]
    · intro k v hk
      rw [alookup_dictUpdate, hk, some_or]
    · intro k hk1 hk2
      rw [alookup_dictUpdate, hk2, Option.none_or, alookup_dictUpdate, hk1, Option.none_or]

/-- Witness for C1 on a one-entry document patched with settings keys "b"
then "c" over original settings key "a". -/
theorem C1_patch_plugin_merge_disjoint_witness :
    ∃ kvs1 kvs2 : List (String × Json),
      (patch_plugin
          ⟨CFile.valid (Json.obj [("plugins", Json.arr
            [Json.obj [("id", Json.str "p"), ("enabled", Json.bool false),
              ("settings", Json.obj [("a", Json.num 1)])]])]), []⟩
          "p" [("settings", Json.obj [("b", Json.num 2)])]).2 =
        Except.ok (Json.obj kvs1) ∧
      (patch_plugin
          (patch_plugin
            ⟨CFile.valid (Json.obj [("plugins", Json.arr
              [Json.obj [("id", Json.str "p"), ("enabled", Json.bool false),
                ("settings", Json.obj [("a", Json.num 1)])]])]), []⟩
            "p" [("settings", Json.obj [("b", Json.num 2)])]).1
          "p" [("settings", Json.obj [("c", Json.num 3)])]).2 =
        Except.ok (Json.obj kvs2) ∧
      alookup kvs1 "enabled" = some (Json.bool false) ∧
      alookup kvs2 "enabled" = some (Json.bool false) ∧
      (∃ m1, alookup kvs1 "settings" = some (Json.obj m1) ∧
        (∀ k, alookup [("b", Json.num 2)] k = none →
          alookup m1 k = alookup [("a", Json.num 1)] k) ∧
        (∀ k v, alookup [("b", Json.num 2)] k = some v → alookup m1 k = some v)) ∧
      (∃ m2, alookup kvs2 "settings" = some (Json.obj m2) ∧
        (∀ k v, alookup [("b", Json.num 2)] k = some v → alookup m2 k = some v) ∧
        (∀ k v, alookup [("c", Json.num 3)] k = some v → alookup m2 k = some v) ∧
        (∀ k, alookup [("b", Json.num 2)] k = none →
          alookup [("c", Json.num 3)] k = none →
          alookup m2 k = alookup [("a", Json.num 1)] k)) := by
  refine C1_patch_plugin_merge_disjoint _ _ "p" [] []
    [("id", Json.str "p"), ("enabled", Json.bool false),
      ("settings", Json.obj [("a", Json.num 1)])]
    [("a", Json.num 1)]
    [("settings", Json.obj [("b", Json.num 2)])]
    [("settings", Json.obj [("c", Json.num 3)])]
    [("b", Json.num 2)] [("c", Json.num 3)] (Json.bool false)
    rfl rfl (by simp) rfl rfl rfl rfl rfl rfl rfl ?_
  intro k
  by_cases h : "b" = k
  · subst h
    right
    rfl
  · left
    simp [alookup, h]

/-- Claim C4: patching an id absent from the document appends exactly one
fresh entry with the body's enabled (default true) and settings (default
empty), writes the document back, and returns that entry; all pre-existing
entries and the rest of the document are unchanged and the plugin count
grows by exactly one. -/
theorem C4_patch_plugin_creates_entry (s : CState) (ckvs : List (String × Json))
    (pid : String) (body : List (String × Json)) (entries : List Json)
    (hf : s.file = CFile.valid (Json.obj ckvs))
    (hp : (alookup ckvs "plugins").getD (Json.arr []) = Json.arr entries)
    (hents : ∀ e ∈ entries, Skips e pid) :
    patch_plugin s pid body =
      ({ file := CFile.valid (Json.obj (dictSet ckvs "plugins"
            (Json.arr (entries ++ [Json.obj
              [("id", Json.str pid),
               ("enabled", dictGetD body "enabled" (Json.bool true)),
               ("settings", dictGetD body "settings" (Json.obj []))]])))),
         defaults := s.defaults },
       Except.ok (Json.obj
         [("id", Json.str pid),
          ("enabled", dictGetD body "enabled" (Json.bool true)),
          ("settings", dictGetD body "settings" (Json.obj []))])) ∧
    (entries ++ [Json.obj
      [("id", Json.str pid),
       ("enabled", dictGetD body "enabled" (Json.bool true)),
       ("settings", dictGetD body "settings" (Json.obj []))]]).length =
      entries.length + 1 := by
  have hscan := scanPatch_notFound pid body entries hents
  constructor
  · simp [patch_plugin, _read_config, hf, hp, hscan]
  · simp

/-- Witness for C4: creating entry "newp" with enabled false on a document
with one unrelated plugin entry. -/
theorem C4_patch_plugin_creates_entry_witness :
    patch_plugin
        ⟨CFile.valid (Json.obj [("plugins", Json.arr
          [Json.obj [("id", Json.str "other"), ("enabled", Json.bool true),
            ("settings", Json.obj [])]])]), []⟩
        "newp" [("enabled", Json.bool false)] =
      ({ file := CFile.valid (Json.obj [("plugins", Json.arr
          [Json.obj [("id", Json.str "other"), ("enabled", Json.bool true),
            ("settings", Json.obj [])],
           Json.obj [("id", Json.str "newp"), ("enabled", Json.bool false),
            ("settings", Json.obj [])]])]),
         defaults := [] },
       Except.ok (Json.obj [("id", Json.str "newp"), ("enabled", Json.bool false),
         ("settings", Json.obj [])])) ∧
      ([Json.obj [("id", Json.str "other"), ("enabled", Json.bool true),
          ("settings", Json.obj [])],
        Json.obj [("id", Json.str "newp"), ("enabled", Json.bool false),
          ("settings", Json.obj [])]] : List Json).length = 2 := by
  have h := C4_patch_plugin_creates_entry
    ⟨CFile.valid (Json.obj [("plugins", Json.arr
      [Json.obj [("id", Json.str "other"), ("enabled", Json.bool true),
        ("settings", Json.obj [])]])]), []⟩
    _ "newp" [("enabled", Json.bool false)]
    [Json.obj [("id", Json.str "other"), ("enabled", Json.bool true),
      ("settings", Json.obj [])]]
    rfl rfl
    (by
      intro e he
      simp at he
      exact ⟨_, _, he, rfl, rfl⟩)
  exact ⟨h.1, h.2⟩

-- ── Claim C10: the shared default document is mutated ─────────────────────

/-- Projection used to tell the mutated default apart from the pristine one:
the "settings" value of the first entry of the "plugins" list. -/
def firstEntrySettings (j : Json) : Option Json :=
  match j with
  | Json.obj kvs =>
    match alookup kvs "plugins" with
    | some (Json.arr (e :: _)) =>
      match e with
      | Json.obj ekvs => alookup ekvs "settings"
      | _ => none
    | _ => none
  | _ => none

/-- The same projection through the read result (none when the read
raised). -/
def readFirstEntrySettings (e : Except Unit Json) : Option Json :=
  match e with
  | Except.ok j => firstEntrySettings j
  | Except.error _ => none

/-- Claim C10 (refuting the code): a patch applied to a default-fallback
read mutates the entry dicts shared with DEFAULT_CONFIG through the shallow
copy, so a later fallback read no longer returns the pristine hard-coded
default document. -/
theorem C10_default_document_mutated :
    (get_config
        { file := CFile.corrupt,
          defaults := (patch_plugin
              { file := CFile.absent, defaults := DEFAULT_CONFIG_plugins }
              "lavarrock.ui"
              [("settings", Json.obj [("theme", Json.str "dark")])]).1.defaults }).2
      ≠ Except.ok DEFAULT_CONFIG := by
  intro h
  have h1 : readFirstEntrySettings
      ((get_config
        { file := CFile.corrupt,
          defaults := (patch_plugin
              { file := CFile.absent, defaults := DEFAULT_CONFIG_plugins }
              "lavarrock.ui"
              [("settings", Json.obj [("theme", Json.str "dark")])]).1.defaults }).2) =
      some (Json.obj [("theme", Json.str "dark")]) := rfl
  rw [h] at h1
  have h2 : readFirstEntrySettings (Except.ok DEFAULT_CONFIG) =
      some (Json.obj []) := rfl
  rw [h2] at h1
  exact absurd h1 (by simp)

-- ── Theme store (routes/themes.py) ────────────────────────────────────────

/-- The single quote character, used by the Python repr of strings. -/
def quoteMark : String := String.singleton (Char.ofNat 39)

mutual

/-- Python str()/repr() of a parsed JSON value, as used by the f-string
building the theme file name (string escaping inside reprs is not modelled;
no theorem depends on the repr of a composite value). -/
def pyReprJson : Json → String
  | Json.null => "None"
  | Json.bool true => "True"
  | Json.bool false => "False"
  | Json.num n => toString n
  | Json.str s => quoteMark ++ s ++ quoteMark
  | Json.arr l => "[" ++ pyReprList l ++ "]"
  | Json.obj l => "\x7b" ++ pyReprObj l ++ "\x7d"

def pyReprList : List Json → String
  | [] => ""
  | [x] => pyReprJson x
  | x :: rest => pyReprJson x ++ ", " ++ pyReprList rest

def pyReprObj : List (String × Json) → String
  | [] => ""
  | [(k, v)] => quoteMark ++ k ++ quoteMark ++ ": " ++ pyReprJson v
  | (k, v) :: rest =>
      quoteMark ++ k ++ quoteMark ++ ": " ++ pyReprJson v ++ ", " ++ pyReprObj rest

end

/-- Python str(x): the string itself for strings, the repr otherwise. -/
def pyStrOf : Json → String
  | Json.str s => s
  | j => pyReprJson j

/-- Python truthiness of a parsed JSON value. -/
def jsonTruthy : Json → Bool
  | Json.null => false
  | Json.bool b => b
  | Json.num n => n != 0
  | Json.str s => s != ""
  | Json.arr l => !l.isEmpty
  | Json.obj l => !l.isEmpty

/-- Python x == s for a looked-up JSON value x and a str s: value equality
for strings, False for None (absent key) and for non-string values. -/
def pyEqStr (o : Option Json) (s : String) : Bool :=
  match o with
  | some (Json.str t) => t = s
  | _ => false

/-- Appending the fixed ".json" suffix to distinct name stems yields
distinct file names. -/
theorem append_json_ne (a b : String) (h : a ≠ b) :
    a ++ ".json" ≠ b ++ ".json" := by
  intro e
  apply h
  have hd := congrArg String.data e
  simp [String.data_append] at hd
  exact String.ext hd

/-- The pointer file living inside the themes directory. -/
def ACTIVE_THEME_FILE : String := "active_theme.json"

/-- Pydantic response model of the theme routes. -/
structure ThemeResponse where
  name : String
  theme : Json
  active : Bool

/-- Theme-store state: the themes directory as a map from file name to the
parsed JSON content of that file.  The active-theme pointer file lives in
the same directory under the fixed name active_theme.json (file names are
unique, so well-formed states have Nodup keys). -/
structure TState where
  dir : List (String × Json)

/-- POST /api/themes: write the theme document to name.json (overwriting),
then point the active-theme file at the name, and answer with the theme
marked active. -/
def upload_theme (s : TState) (name : String) (theme : Json) : TState × ThemeResponse :=
  let d1 := dictSet s.dir (name ++ ".json") theme
  let d2 := dictSet d1 ACTIVE_THEME_FILE (Json.obj [("name", Json.str name)])
  (⟨d2⟩, ⟨name, theme, true⟩)

/-- GET /api/themes/active.  None when the pointer file is absent, names a
falsy value, or names a file that does not exist; Except.error () stands
for an uncaught exception turned into HTTP 500 (pointer content without
.get, or a response failing pydantic validation). -/
def get_active_theme (s : TState) : Except Unit (Option ThemeResponse) :=
  match alookup s.dir ACTIVE_THEME_FILE with
  | none => Except.ok none
  | some activeData =>
    match activeData with
    | Json.obj akvs =>
      match alookup akvs "name" with
      | none => Except.ok none
      | some tn =>
        if jsonTruthy tn then
          match alookup s.dir (pyStrOf tn ++ ".json") with
          | none => Except.ok none
          | some theme =>
            match tn, theme with
            | Json.str nm, Json.obj _ => Except.ok (some ⟨nm, theme, true⟩)
            | _, _ => Except.error ()
        else Except.ok none
    | _ => Except.error ()

/-- DELETE /api/themes/theme_name: 404 when name.json does not exist, else
unlink it and, when the pointer file exists and names the deleted theme,
unlink the pointer file too. -/
def delete_theme (s : TState) (name : String) : TState × Except Nat Json :=
  match alookup s.dir (name ++ ".json") with
  | none => (s, Except.error 404)
  | some _ =>
    let d1 := aerase s.dir (name ++ ".json")
    match alookup d1 ACTIVE_THEME_FILE with
    | none => (⟨d1⟩, Except.ok (Json.obj [("message", Json.str "Theme deleted successfully")]))
    | some activeData =>
      match activeData with
      | Json.obj akvs =>
        if pyEqStr (alookup akvs "name") name then
          (⟨aerase d1 ACTIVE_THEME_FILE⟩,
           Except.ok (Json.obj [("message", Json.str "Theme deleted successfully")]))
        else
          (⟨d1⟩, Except.ok (Json.obj [("message", Json.str "Theme deleted successfully")]))
      | _ => (⟨d1⟩, Except.error 500)

/-- getActive on a state without the pointer file. -/
theorem get_active_theme_none (s : TState)
    (h : alookup s.dir ACTIVE_THEME_FILE = none) :
    get_active_theme s = Except.ok none := by
  simp [get_active_theme, h]

/-- delete_theme when the deleted file existed and afterwards no pointer
file remains (including the case where the deleted file was the pointer
file itself). -/
theorem delete_theme_pointer_gone (s : TState) (name : String) (tj : Json)
    (hth : alookup s.dir (name ++ ".json") = some tj)
    (h1 : alookup (aerase s.dir (name ++ ".json")) ACTIVE_THEME_FILE = none) :
    delete_theme s name = (⟨aerase s.dir (name ++ ".json")⟩,
      Except.ok (Json.obj [("message", Json.str "Theme deleted successfully")])) := by
  simp [delete_theme, hth, h1]

-- ── Claims C7, C8 and C9 ──────────────────────────────────────────────────

/-- Counterexample to claim C7 as stated (for every name): uploading under
the empty name succeeds, but getActive then returns None rather than the
uploaded theme, because the stored pointer name is falsy. -/
theorem C7_counterexample_empty_name :
    get_active_theme (upload_theme ⟨[]⟩ "" (Json.obj [])).1 ≠
      Except.ok (some ⟨"", Json.obj [], true⟩) := by
  intro h
  have hl : get_active_theme (upload_theme ⟨[]⟩ "" (Json.obj [])).1 =
      Except.ok none := rfl
  rw [hl] at h
  exact Option.noConfusion (Except.ok.inj h)

/-- Claim C7 (amended): for every name other than "" and the reserved stem
"active_theme", and every theme document (an object, as the request model
requires), upload writes the document to name.json, unconditionally
overwriting, points the active-theme file at the name, returns the theme
marked active, and a subsequent getActive returns the same. -/
theorem C7_upload_then_get_active (s : TState) (name : String) (theme : Json)
    (kvsT : List (String × Json))
    (hobj : theme = Json.obj kvsT)
    (hne : name ≠ "")
    (hres : name ≠ "active_theme") :
    (upload_theme s name theme).2 = ⟨name, theme, true⟩ ∧
    alookup (upload_theme s name theme).1.dir (name ++ ".json") = some theme ∧
    alookup (upload_theme s name theme).1.dir ACTIVE_THEME_FILE =
      some (Json.obj [("name", Json.str name)]) ∧
    get_active_theme (upload_theme s name theme).1 =
      Except.ok (some ⟨name, theme, true⟩) := by
  subst hobj
  have hfile : name ++ ".json" ≠ ACTIVE_THEME_FILE :=
    append_json_ne name "active_theme" hres
  have hth : alookup (upload_theme s name (Json.obj kvsT)).1.dir (name ++ ".json") =
      some (Json.obj kvsT) := by
    show alookup (dictSet (dictSet s.dir (name ++ ".json") (Json.obj kvsT))
      ACTIVE_THEME_FILE (Json.obj [("name", Json.str name)])) (name ++ ".json") = _
    rw [alookup_dictSet_ne _ _ _ _ hfile, alookup_dictSet_self]
  have hact : alookup (upload_theme s name (Json.obj kvsT)).1.dir ACTIVE_THEME_FILE =
      some (Json.obj [("name", Json.str name)]) := by
    show alookup (dictSet (dictSet s.dir (name ++ ".json") (Json.obj kvsT))
      ACTIVE_THEME_FILE (Json.obj [("name", Json.str name)])) ACTIVE_THEME_FILE = _
    rw [alookup_dictSet_self]
  refine ⟨rfl, hth, hact, ?_⟩
  have htr : jsonTruthy (Json.str name) = true := by simp [jsonTruthy, hne]
  simp only [get_active_theme, hact, htr, alookup_cons, if_true]
  have hstr : pyStrOf (Json.str name) ++ ".json" = name ++ ".json" := rfl
  rw [hstr, hth]

/-- Witness for the amended C7 at name "dark" and a one-key theme. -/
theorem C7_upload_then_get_active_witness :
    (upload_theme ⟨[]⟩ "dark" (Json.obj [("colors", Json.obj [])])).2 =
      ⟨"dark", Json.obj [("colors", Json.obj [])], true⟩ ∧
    alookup (upload_theme ⟨[]⟩ "dark" (Json.obj [("colors", Json.obj [])])).1.dir
        ("dark" ++ ".json") = some (Json.obj [("colors", Json.obj [])]) ∧
    alookup (upload_theme ⟨[]⟩ "dark" (Json.obj [("colors", Json.obj [])])).1.dir
        ACTIVE_THEME_FILE = some (Json.obj [("name", Json.str "dark")]) ∧
    get_active_theme (upload_theme ⟨[]⟩ "dark" (Json.obj [("colors", Json.obj [])])).1 =
      Except.ok (some ⟨"dark", Json.obj [("colors", Json.obj [])], true⟩) :=
  C7_upload_then_get_active ⟨[]⟩ "dark" (Json.obj [("colors", Json.obj [])])
    [("colors", Json.obj [])] rfl (by decide) (by decide)

/-- Counterexample to claim C8 as stated: with active theme "n" present,
deleting the name "active_theme" (a theme other than the active one, whose
.json file exists: it is the pointer file itself) succeeds and clears the
active reference, changing getActive from the active theme to None. -/
theorem C8_counterexample_delete_pointer_stem :
    get_active_theme ⟨[("n.json", Json.obj []),
        ("active_theme.json", Json.obj [("name", Json.str "n")])]⟩ =
      Except.ok (some ⟨"n", Json.obj [], true⟩) ∧
    (delete_theme ⟨[("n.json", Json.obj []),
        ("active_theme.json", Json.obj [("name", Json.str "n")])]⟩ "active_theme").2 =
      Except.ok (Json.obj [("message", Json.str "Theme deleted successfully")]) ∧
    get_active_theme (delete_theme ⟨[("n.json", Json.obj []),
        ("active_theme.json", Json.obj [("name", Json.str "n")])]⟩ "active_theme").1 =
      Except.ok none :=
  ⟨rfl, rfl, rfl⟩

/-- Claim C8 (amended): on a directory with unique file names, deleting the
theme named by the active-theme reference clears the reference and getActive
then returns None; deleting a theme other than the active one whose name is
also not the reserved stem "active_theme" leaves the reference and the
getActive result unchanged. -/
theorem C8_delete_and_active_reference :
    (∀ (s : TState) (akvs : List (String × Json)) (n : String) (tj : Json),
      (s.dir.map Prod.fst).Nodup →
      alookup s.dir ACTIVE_THEME_FILE = some (Json.obj akvs) →
      alookup akvs "name" = some (Json.str n) →
      alookup s.dir (n ++ ".json") = some tj →
      alookup (delete_theme s n).1.dir ACTIVE_THEME_FILE = none ∧
      get_active_theme (delete_theme s n).1 = Except.ok none) ∧
    (∀ (s : TState) (akvs : List (String × Json)) (n m : String) (tj : Json),
      alookup s.dir ACTIVE_THEME_FILE = some (Json.obj akvs) →
      alookup akvs "name" = some (Json.str n) →
      alookup s.dir (m ++ ".json") = some tj →
      m ≠ n → m ≠ "active_theme" →
      alookup (delete_theme s m).1.dir ACTIVE_THEME_FILE =
        alookup s.dir ACTIVE_THEME_FILE ∧
      get_active_theme (delete_theme s m).1 = get_active_theme s) := by
  constructor
  · intro s akvs n tj hnd href hname hth
    by_cases hn : n = "active_theme"
    · subst hn
      have hgone : alookup (aerase s.dir ("active_theme" ++ ".json"))
          ACTIVE_THEME_FILE = none :=
        alookup_aerase_self s.dir ("active_theme" ++ ".json") hnd
      have hstate := delete_theme_pointer_gone s "active_theme" tj hth hgone
      rw [hstate]
      exact ⟨hgone, get_active_theme_none ⟨aerase s.dir ("active_theme" ++ ".json")⟩ hgone⟩
    · have hfile : n ++ ".json" ≠ ACTIVE_THEME_FILE := append_json_ne n "active_theme" hn
      have hAF : ACTIVE_THEME_FILE ≠ n ++ ".json" := fun e => hfile e.symm
      have h1 : alookup (aerase s.dir (n ++ ".json")) ACTIVE_THEME_FILE =
          some (Json.obj akvs) := by
        rw [alookup_aerase_ne _ _ _ hAF, href]
      have heq : pyEqStr (alookup akvs "name") n = true := by
        simp [pyEqStr, hname]
      have hnd1 : ((aerase s.dir (n ++ ".json")).map Prod.fst).Nodup :=
        hnd.sublist ((aerase_sublist s.dir (n ++ ".json")).map Prod.fst)
      have hstate : (delete_theme s n).1 =
          ⟨aerase (aerase s.dir (n ++ ".json")) ACTIVE_THEME_FILE⟩ := by
        simp [delete_theme, hth, h1, heq]
      have hgone : alookup (aerase (aerase s.dir (n ++ ".json")) ACTIVE_THEME_FILE)
          ACTIVE_THEME_FILE = none :=
        alookup_aerase_self _ _ hnd1
      rw [hstate]
      exact ⟨hgone, by simp [get_active_theme, hgone]⟩
  · intro s akvs n m tj href hname hth hm1 hm2
    have hfile : m ++ ".json" ≠ ACTIVE_THEME_FILE := append_json_ne m "active_theme" hm2
    have hAF : ACTIVE_THEME_FILE ≠ m ++ ".json" := fun e => hfile e.symm
    have hthm : (n ++ ".json") ≠ (m ++ ".json") :=
      append_json_ne n m (fun e => hm1 e.symm)
    have h1 : alookup (aerase s.dir (m ++ ".json")) ACTIVE_THEME_FILE =
        some (Json.obj akvs) := by
      rw [alookup_aerase_ne _ _ _ hAF, href]
    have heq : pyEqStr (alookup akvs "name") m = false := by
      have : ¬ n = m := fun e => hm1 e.symm
      simp [pyEqStr, hname, this]
    have hstate : (delete_theme s m).1 = ⟨aerase s.dir (m ++ ".json")⟩ := by
      simp [delete_theme, hth, h1, heq]
    rw [hstate]
    refine ⟨by rw [h1, href], ?_⟩
    have hkey : alookup (aerase s.dir (m ++ ".json")) (n ++ ".json") =
        alookup s.dir (n ++ ".json") :=
      alookup_aerase_ne _ _ _ hthm
    have hstr : pyStrOf (Json.str n) ++ ".json" = n ++ ".json" := rfl
    simp only [get_active_theme, h1, href, hname, hstr, hkey]

/-- Witness for the amended C8: deleting the active theme "a" clears the
reference, and deleting the inactive theme "b" leaves it untouched. -/
theorem C8_delete_and_active_reference_witness :
    (alookup (delete_theme ⟨[("a.json", Json.obj []),
        ("active_theme.json", Json.obj [("name", Json.str "a")])]⟩ "a").1.dir
      ACTIVE_THEME_FILE = none ∧
     get_active_theme (delete_theme ⟨[("a.json", Json.obj []),
        ("active_theme.json", Json.obj [("name", Json.str "a")])]⟩ "a").1 =
      Except.ok none) ∧
    (alookup (delete_theme ⟨[("b.json", Json.obj []),
        ("active_theme.json", Json.obj [("name", Json.str "a")])]⟩ "b").1.dir
      ACTIVE_THEME_FILE =
      alookup ([("b.json", Json.obj []),
        ("active_theme.json", Json.obj [("name", Json.str "a")])])
        ACTIVE_THEME_FILE ∧
     get_active_theme (delete_theme ⟨[("b.json", Json.obj []),
        ("active_theme.json", Json.obj [("name", Json.str "a")])]⟩ "b").1 =
      get_active_theme ⟨[("b.json", Json.obj []),
        ("active_theme.json", Json.obj [("name", Json.str "a")])]⟩) :=
  ⟨C8_delete_and_active_reference.1
      ⟨[("a.json", Json.obj []),
        ("active_theme.json", Json.obj [("name", Json.str "a")])]⟩
      [("name", Json.str "a")] "a" (Json.obj [])
      (by decide) rfl rfl rfl,
   C8_delete_and_active_reference.2
      ⟨[("b.json", Json.obj []),
        ("active_theme.json", Json.obj [("name", Json.str "a")])]⟩
      [("name", Json.str "a")] "a" "b" (Json.obj [])
      rfl rfl rfl (by decide) (by decide)⟩

/-- Claim C9: deleting a theme whose file does not exist fails with 404 and
leaves the entire stored state unchanged. -/
theorem C9_delete_missing_theme (s : TState) (name : String)
    (h : alookup s.dir (name ++ ".json") = none) :
    delete_theme s name = (s, Except.error 404) := by
  simp [delete_theme, h]

/-- Witness for C9 on an empty themes directory. -/
theorem C9_delete_missing_theme_witness :
    delete_theme ⟨[]⟩ "missing" = (⟨[]⟩, Except.error 404) :=
  C9_delete_missing_theme ⟨[]⟩ "missing" rfl

-- ── Model factory (models/factory.py, config.py) ──────────────────────────

/-- OllamaConfig from config.py with its field defaults (temperature is a
float in the source; modelled as a rational, it is only passed through). -/
structure OllamaConfig where
  provider : String := "ollama"
  host : String := "http://localhost:11434"
  model_id : String := "llama3.1:latest"
  temperature : Rat := 0.7
  keep_alive : String := "10m"

/-- BedrockConfig from config.py with its field defaults. -/
structure BedrockConfig where
  provider : String := "bedrock"
  model_id : String := "anthropic.claude-sonnet-4-20250514-v1:0"
  region : String := "us-west-2"
  profile : Option String := none
  temperature : Rat := 0.3

/-- Which optional provider SDKs are importable in the running process. -/
structure Caps where
  ollama_installed : Bool
  bedrock_installed : Bool

/-- The constructed strands OllamaModel handle (argument record). -/
structure OllamaModel where
  host : String
  model_id : String
  temperature : Rat
  keep_alive : String

/-- A boto3 client derived from a profile-bound session:
boto3.Session(profile_name=profile).client("bedrock-runtime"). -/
structure BotoClient where
  profile_name : String
  service : String

/-- The constructed strands BedrockModel handle (argument record):
region_name and client are only passed when the corresponding kwargs were
set; client = none means ambient/default credentials. -/
structure BedrockModel where
  model_id : String
  temperature : Rat
  streaming : Bool
  region_name : Option String
  client : Option BotoClient

inductive ModelInstance where
  | ollamaModel (m : OllamaModel)
  | bedrockModel (m : BedrockModel)

/-- Failures of create_model: the ValueError on an unknown provider tag
(carrying the offending value, None when the key is absent), the
ImportError of an unavailable SDK, and a pydantic validation failure when
coercing the raw dict. -/
inductive FactoryError where
  | unsupportedProvider (offending : Option Json)
  | importError (msg : String)
  | validationError

/-- The Union[OllamaConfig, BedrockConfig, dict] argument of create_model. -/
inductive ModelConfigInput where
  | ollamaCfg (c : OllamaConfig)
  | bedrockCfg (c : BedrockConfig)
  | dict (d : List (String × Json))

/-- Pydantic coercion of an optional str field. -/
def getStrField (d : List (String × Json)) (key : String) (dflt : String) :
    Except FactoryError String :=
  match alookup d key with
  | none => Except.ok dflt
  | some (Json.str s) => Except.ok s
  | some _ => Except.error FactoryError.validationError

/-- Pydantic coercion of an optional str-or-None field. -/
def getOptStrField (d : List (String × Json)) (key : String) :
    Except FactoryError (Option String) :=
  match alookup d key with
  | none => Except.ok none
  | some Json.null => Except.ok none
  | some (Json.str s) => Except.ok (some s)
  | some _ => Except.error FactoryError.validationError

/-- Pydantic coercion of an optional float field (numbers only here; numeric
strings are not modelled, no claim depends on them). -/
def getRatField (d : List (String × Json)) (key : String) (dflt : Rat) :
    Except FactoryError Rat :=
  match alookup d key with
  | none => Except.ok dflt
  | some (Json.num n) => Except.ok (n : Rat)
  | some _ => Except.error FactoryError.validationError

/-- OllamaConfig(**config): fields with defaults. -/
def OllamaConfig.ofDict (d : List (String × Json)) : Except FactoryError OllamaConfig := do
  let host ← getStrField d "host" "http://localhost:11434"
  let model_id ← getStrField d "model_id" "llama3.1:latest"
  let temperature ← getRatField d "temperature" 0.7
  let keep_alive ← getStrField d "keep_alive" "10m"
  Except.ok ⟨"ollama", host, model_id, temperature, keep_alive⟩

/-- BedrockConfig(**config): fields with defaults. -/
def BedrockConfig.ofDict (d : List (String × Json)) : Except FactoryError BedrockConfig := do
  let model_id ← getStrField d "model_id" "anthropic.claude-sonnet-4-20250514-v1:0"
  let region ← getStrField d "region" "us-west-2"
  let profile ← getOptStrField d "profile"
  let temperature ← getRatField d "temperature" 0.3
  Except.ok ⟨"bedrock", model_id, region, profile, temperature⟩

def _create_ollama_model (caps : Caps) (config : OllamaConfig) :
    Except FactoryError ModelInstance :=
  if caps.ollama_installed then
    Except.ok (ModelInstance.ollamaModel
      ⟨config.host, config.model_id, config.temperature, config.keep_alive⟩)
  else
    Except.error (FactoryError.importError
      "Ollama support requires strands-agents[ollama] to be installed")

/-- _create_bedrock_model: region_name kwarg when the region is truthy; a
session-scoped client bound to the profile when the profile is truthy;
streaming always True. -/
def _create_bedrock_model (caps : Caps) (config : BedrockConfig) :
    Except FactoryError ModelInstance :=
  if caps.bedrock_installed then
    Except.ok (ModelInstance.bedrockModel
      { model_id := config.model_id
        temperature := config.temperature
        streaming := true
        region_name := if config.region ≠ "" then some config.region else none
        client :=
          match config.profile with
          | some p => if p ≠ "" then some ⟨p, "bedrock-runtime"⟩ else none
          | none => none })
  else
    Except.error (FactoryError.importError
      "Bedrock support requires strands-agents[bedrock] and boto3 to be installed")

/-- ModelFactory.create_model: a raw dict is first converted to the typed
config selected by its "provider" value (any other value raises the
unsupported-provider ValueError), then dispatch goes by config type. -/
def create_model (caps : Caps) : ModelConfigInput → Except FactoryError ModelInstance
  | ModelConfigInput.dict d =>
    let provider := alookup d "provider"
    if pyEqStr provider "ollama" then
      match OllamaConfig.ofDict d with
      | Except.ok c => _create_ollama_model caps c
      | Except.error e => Except.error e
    else if pyEqStr provider "bedrock" then
      match BedrockConfig.ofDict d with
      | Except.ok c => _create_bedrock_model caps c
      | Except.error e => Except.error e
    else
      Except.error (FactoryError.unsupportedProvider provider)
  | ModelConfigInput.ollamaCfg c => _create_ollama_model caps c
  | ModelConfigInput.bedrockCfg c => _create_bedrock_model caps c

-- ── Claims C5 and C6 ──────────────────────────────────────────────────────

/-- Claim C5: createModel on a raw mapping whose provider value equals
neither "ollama" nor "bedrock" (including an absent provider key) fails
with the unsupported-provider error carrying the offending value and
constructs no client. -/
theorem C5_unsupported_provider_rejected (caps : Caps) (d : List (String × Json))
    (h1 : pyEqStr (alookup d "provider") "ollama" = false)
    (h2 : pyEqStr (alookup d "provider") "bedrock" = false) :
    create_model caps (ModelConfigInput.dict d) =
      Except.error (FactoryError.unsupportedProvider (alookup d "provider")) := by
  simp [create_model, h1, h2]

/-- Witness for C5 at provider "openai". -/
theorem C5_unsupported_provider_rejected_witness :
    create_model ⟨true, true⟩ (ModelConfigInput.dict [("provider", Json.str "openai")]) =
      Except.error (FactoryError.unsupportedProvider (some (Json.str "openai"))) :=
  C5_unsupported_provider_rejected ⟨true, true⟩ [("provider", Json.str "openai")] rfl rfl

/-- Claim C6: for every Bedrock configuration (with the SDK importable),
createModel builds the model with streaming always requested; a supplied
(truthy) profile yields a client derived from a session bound to that
profile, and an absent profile yields no session client (ambient/default
credentials). -/
theorem C6_bedrock_streaming_and_profile_session (caps : Caps) (config : BedrockConfig)
    (hsdk : caps.bedrock_installed = true) :
    ∃ m : BedrockModel,
      create_model caps (ModelConfigInput.bedrockCfg config) =
        Except.ok (ModelInstance.bedrockModel m) ∧
      m.streaming = true ∧
      (∀ p, config.profile = some p → p ≠ "" →
        m.client = some ⟨p, "bedrock-runtime"⟩) ∧
      (config.profile = none → m.client = none) := by
  refine ⟨{ model_id := config.model_id
            temperature := config.temperature
            streaming := true
            region_name := if config.region ≠ "" then some config.region else none
            client :=
              match config.profile with
              | some p => if p ≠ "" then some ⟨p, "bedrock-runtime"⟩ else none
              | none => none }, ?_, rfl, ?_, ?_⟩
  · simp [create_model, _create_bedrock_model, hsdk]
  · intro p hp hpne
    show (match config.profile with
      | some p => if p ≠ "" then some (BotoClient.mk p "bedrock-runtime") else none
      | none => none) = some ⟨p, "bedrock-runtime"⟩
    rw [hp]
    simp [hpne]
  · intro hp
    show (match config.profile with
      | some p => if p ≠ "" then some (BotoClient.mk p "bedrock-runtime") else none
      | none => none) = none
    rw [hp]

/-- Witness for C6 with profile "dev" and the default fields. -/
theorem C6_bedrock_streaming_and_profile_session_witness :
    ∃ m : BedrockModel,
      create_model ⟨true, true⟩
          (ModelConfigInput.bedrockCfg { profile := some "dev" }) =
        Except.ok (ModelInstance.bedrockModel m) ∧
      m.streaming = true ∧
      (∀ p, (some "dev" : Option String) = some p → p ≠ "" →
        m.client = some ⟨p, "bedrock-runtime"⟩) ∧
      ((some "dev" : Option String) = none → m.client = none) :=
  C6_bedrock_streaming_and_profile_session ⟨true, true⟩ { profile := some "dev" } rfl

end Lavarrock
